import Mathlib

/-!
Shallow embedding of the AutoFlow invoice approval core:
* `backend/src/utils/workflowEngine.js` (`getExpectedRole`, `processAction`)
* `backend/src/utils/invoiceIdGenerator.js` (`validateOptions`, `generateInvoiceId`)

JavaScript strings are Lean `String`s; JS object fields become structure
fields; JS `throw` becomes an explicit error value.  `processAction`
mutates the invoice it is given, so its embedding returns the final state
of that invoice alongside the (optional) error: an error raised before
the mutation point returns the untouched invoice, exactly as the JS
object would be left untouched.
-/

namespace AutoFlow

/-- One element of `invoice.approvalHistory` as built by `processAction`
(`workflowEngine.js`, lines 93-99).  The JS field `by` is a Lean keyword,
hence `by_`. -/
structure HistoryEntry where
  action : String
  by_ : String
  role : String
  timestamp : Nat
  comment : Option String
deriving Repr, DecidableEq

/-- The invoice fields read or written by the workflow engine.
`submittedBy` is the submitter's id string (the JS code normalises
`submittedBy._id`/`submittedBy` with `toString()`, lines 65-67). -/
structure Invoice where
  status : String
  approvalHistory : List HistoryEntry
  submittedBy : String
  currentApprover : Option String
deriving Repr, DecidableEq

/-- The acting user: `{ id, role }` (`workflowEngine.js`, line 48). -/
structure User where
  id : String
  role : String
deriving Repr, DecidableEq

/-- The error kinds thrown by `processAction`, in the spec's taxonomy.
Each constructor corresponds to one `throw` site of the JS function. -/
inductive WfError where
  | InvalidInput
  | AlreadyFinalized
  | ConflictOfInterest
  | NoActionExpected
  | WrongStage
  | UnhandledState
deriving Repr, DecidableEq

/-- Result of a `processAction` call: the optional error (`none` on
success) and the final state of the invoice object that was passed in. -/
structure ProcResult where
  error : Option WfError
  invoice : Invoice
deriving Repr, DecidableEq

/-- `getExpectedRole` (`workflowEngine.js`, lines 17-42): which role is
allowed to act next.  Non-`PENDING` status yields `none`; empty history
yields `manager`; a last entry `APPROVED` by `manager` or `admin` yields
`finance`; anything else yields `none`. -/
def getExpectedRole (invoice : Invoice) : Option String :=
  if invoice.status ≠ "PENDING" then none
  else
    match invoice.approvalHistory.getLast? with
    | none => some "manager"
    | some last =>
      if last.action = "APPROVED" ∧ (last.role = "manager" ∨ last.role = "admin")
      then some "finance"
      else none

/-- The effective role computed at `workflowEngine.js`, line 90:
an admin acts in the expected slot, everyone else acts as themselves. -/
def effectiveRole (expectedRole : String) (user : User) : String :=
  if user.role = "admin" then expectedRole else user.role

/-- `processAction` (`workflowEngine.js`, lines 52-129).  Guard order is
the JS order: input guards, terminal-status guard, segregation of
duties, expected-role lookup, role eligibility; then the history entry
is appended (line 101) and the state transition applied.  JS truthiness:
an empty string for `user.id`, `user.role` or `comment` counts as
missing.  Note line 96 records `user.role` — the ACTUAL role — in the
history entry. -/
def processAction (invoice : Invoice) (user : User) (action : String)
    (comment : Option String) (now : Nat) : ProcResult :=
  if user.id = "" ∨ user.role = "" then
    ⟨some WfError.InvalidInput, invoice⟩
  else if ¬ (action = "APPROVE" ∨ action = "REJECT") then
    ⟨some WfError.InvalidInput, invoice⟩
  else if invoice.status = "APPROVED" ∨ invoice.status = "REJECTED" then
    ⟨some WfError.AlreadyFinalized, invoice⟩
  else if invoice.submittedBy = user.id ∧ user.role ≠ "admin" then
    ⟨some WfError.ConflictOfInterest, invoice⟩
  else
    match getExpectedRole invoice with
    | none => ⟨some WfError.NoActionExpected, invoice⟩
    | some expectedRole =>
      if ¬ (user.role = expectedRole ∨ user.role = "admin") then
        ⟨some WfError.WrongStage, invoice⟩
      else
        let entry : HistoryEntry :=
          { action := if action = "APPROVE" then "APPROVED" else "REJECTED"
            by_ := user.id
            role := user.role
            timestamp := now
            comment := match comment with
              | some c => if c = "" then none else some c
              | none => none }
        let invoice' : Invoice :=
          { invoice with approvalHistory := invoice.approvalHistory ++ [entry] }
        if action = "REJECT" then
          ⟨none, { invoice' with status := "REJECTED", currentApprover := none }⟩
        else if effectiveRole expectedRole user = "manager" then
          ⟨none, { invoice' with status := "PENDING", currentApprover := none }⟩
        else if effectiveRole expectedRole user = "finance" then
          ⟨none, { invoice' with status := "APPROVED", currentApprover := none }⟩
        else
          ⟨some WfError.UnhandledState, invoice'⟩

/-! ## Sequence allocator (`invoiceIdGenerator.js`) -/

/-- A JS number as passed for `options.padding`: either an integer value
(`Number.isInteger` true) or some defined value that is not an integer. -/
inductive JsNum where
  | int : Int → JsNum
  | nonInt : JsNum
deriving Repr, DecidableEq

/-- A defined value passed for `options.prefix`: a string, a function of
the year, or a value of any other type (caller misuse). -/
inductive PfxVal where
  | str : String → PfxVal
  | func : (Nat → String) → PfxVal
  | other : PfxVal

/-- The `options` object of `generateInvoiceId`; `none` models an
`undefined` field.  `pfxOpt` models `options.prefix`. -/
structure GenOptions where
  padding : Option JsNum := none
  year : Option Nat := none
  pfxOpt : Option PfxVal := none

/-- The world `generateInvoiceId` runs in: whether mongoose is connected
(`readyState === 1`), whether the `findOneAndUpdate` call throws, the
counter store contents, and the values of `Date.now()`,
`Math.floor(Math.random() * 1e6)` and `new Date().getFullYear()`. -/
structure GenEnv where
  connected : Bool
  storeFails : Bool
  counters : List (String × Nat)
  nowMs : Nat
  rnd : Nat
  currentYear : Nat

/-- The errors `validateOptions` can throw (`RangeError` for padding,
`TypeError` for the id part template). -/
inductive GenError where
  | rangeError
  | typeError
deriving Repr, DecidableEq

/-- Result of a successful `generateInvoiceId` call: the identifier and
the counter store afterwards. -/
structure GenResult where
  value : String
  counters : List (String × Nat)
deriving Repr, DecidableEq

/-- JS `String.prototype.padStart`: left-pad with `c` up to `len`
characters; a string already at least `len` long is returned unchanged. -/
def padStart (s : String) (len : Nat) (c : Char) : String :=
  String.mk (List.replicate (len - s.length) c ++ s.data)

/-- The padding test of `validateOptions` (lines 22-30): a defined
padding fails unless it is an integer in [1, 12]. -/
def badPadding : Option JsNum → Bool
  | none => false
  | some (JsNum.int n) => n < 1 || 12 < n
  | some JsNum.nonInt => true

/-- The id-template test of `validateOptions` (lines 32-38): a defined
value fails unless it is a string or a function. -/
def badPfx : Option PfxVal → Bool
  | some PfxVal.other => true
  | _ => false

/-- `validateOptions` (`invoiceIdGenerator.js`, lines 21-39): a defined
padding must be an integer in [1, 12]; a defined id template must be a
string or a function. -/
def validateOptions (o : GenOptions) : Option GenError :=
  if badPadding o.padding then some GenError.rangeError
  else if badPfx o.pfxOpt then some GenError.typeError
  else none

/-- `DEFAULT_PADDING` (`invoiceIdGenerator.js`, line 18). -/
def DEFAULT_PADDING : Nat := 6

/-- `DEFAULT_PREFIX` (`invoiceIdGenerator.js`, line 19): the function
``(year) => `INV-${year}` ``. -/
def DEFAULT_PFX (year : Nat) : String := "INV-" ++ Nat.repr year

/-- `options.year || new Date().getFullYear()` (line 44); `0` is falsy. -/
def resolveYear (o : GenOptions) (env : GenEnv) : Nat :=
  match o.year with
  | some y => if y = 0 then env.currentYear else y
  | none => env.currentYear

/-- `options.padding || DEFAULT_PADDING` (line 45); `0` is falsy.  After
validation the defined case is an integer in [1, 12], so `Int.toNat` is
exact there. -/
def resolvePadding (o : GenOptions) : Nat :=
  match o.padding with
  | some (JsNum.int n) => if n = 0 then DEFAULT_PADDING else n.toNat
  | _ => DEFAULT_PADDING

/-- Lines 46-49: `options.prefix || DEFAULT_PREFIX`, then apply it when
it is a function ("" is falsy and falls back to the default).  The
`other` case never survives `validateOptions`; it resolves to "" here
only to make the function total. -/
def resolvePfx (o : GenOptions) (year : Nat) : String :=
  match o.pfxOpt with
  | some (PfxVal.str s) => if s = "" then DEFAULT_PFX year else s
  | some (PfxVal.func f) => f year
  | some PfxVal.other => ""
  | none => DEFAULT_PFX year

/-- Write `v` at `key`, appending the pair when the key is absent
(the upsert half of `findOneAndUpdate`). -/
def setCounter (counters : List (String × Nat)) (key : String) (v : Nat) :
    List (String × Nat) :=
  match counters with
  | [] => [(key, v)]
  | (k, w) :: rest =>
    if k = key then (k, v) :: rest else (k, w) :: setCounter rest key v

/-- `Counter.findOneAndUpdate({_id}, {$inc: {seq: 1}}, {new, upsert,
setDefaultsOnInsert})` (lines 64-72): atomically increment the counter
at `key` (default 0 on insert) and return the new value with the
updated store. -/
def counterInc (counters : List (String × Nat)) (key : String) :
    Nat × List (String × Nat) :=
  match counters.lookup key with
  | some v => (v + 1, setCounter counters key (v + 1))
  | none => (1, setCounter counters key 1)

/-- The normal-mode identifier (line 75):
```${prefix}-${String(seq).padStart(padding, '0')}` ``. -/
def normalId (pfx : String) (padding seq : Nat) : String :=
  pfx ++ "-" ++ padStart (Nat.repr seq) padding '0'

/-- The degraded-mode identifier (lines 56-58 and 80-82):
```${prefix}-${ts}-${String(rnd).padStart(padding, '0')}` ``. -/
def degradedId (pfx : String) (padding ts rnd : Nat) : String :=
  pfx ++ "-" ++ Nat.repr ts ++ "-" ++ padStart (Nat.repr rnd) padding '0'

/-- `generateInvoiceId` (`invoiceIdGenerator.js`, lines 41-84): validate
the options, resolve year/padding/id template, then: disconnected store
⇒ degraded id; store throwing ⇒ degraded id (the `catch` branch);
otherwise increment the per-year counter and format the normal id. -/
def generateInvoiceId (o : GenOptions) (env : GenEnv) :
    Except GenError GenResult :=
  match validateOptions o with
  | some e => Except.error e
  | none =>
    let year := resolveYear o env
    let padding := resolvePadding o
    let pfx := resolvePfx o year
    if env.connected = false then
      Except.ok ⟨degradedId pfx padding env.nowMs env.rnd, env.counters⟩
    else if env.storeFails then
      Except.ok ⟨degradedId pfx padding env.nowMs env.rnd, env.counters⟩
    else
      let counterId := "invoiceId:" ++ Nat.repr year
      let res := counterInc env.counters counterId
      Except.ok ⟨normalId pfx padding res.fst, res.snd⟩

/-! ## Concrete scenario inputs used by the theorems below -/

/-- The allocator options of the spec's scenario 6:
`prefix="INV-2026"`, `padding=6`, period key 2026. -/
def opts2026 : GenOptions :=
  { padding := some (JsNum.int 6), year := some 2026,
    pfxOpt := some (PfxVal.str "INV-2026") }

/-- An environment whose counter store is reachable and healthy. -/
def envNormal (counters : List (String × Nat)) : GenEnv :=
  ⟨true, false, counters, 0, 0, 2026⟩

/-- An environment whose counter store is unreachable
(`mongoose.connection.readyState ≠ 1`). -/
def envDegraded : GenEnv := ⟨false, false, [], 5, 7, 2026⟩

/-! ## Helper lemmas -/

/-- `getExpectedRole` only ever expects `manager` or `finance`. -/
theorem getExpectedRole_some {invoice : Invoice} {exp : String}
    (h : getExpectedRole invoice = some exp) :
    exp = "manager" ∨ exp = "finance" := by
  unfold getExpectedRole at h
  split at h
  · exact absurd h (by simp)
  · split at h
    · exact Or.inl (Option.some.inj h).symm
    · split at h
      · exact Or.inr (Option.some.inj h).symm
      · exact absurd h (by simp)

/-- For an actor who passed the eligibility check, the effective role is
exactly the expected role. -/
theorem effectiveRole_eq (exp : String) (user : User)
    (h : user.role = exp ∨ user.role = "admin") :
    effectiveRole exp user = exp := by
  unfold effectiveRole
  split
  · rfl
  · next hadm => exact h.resolve_right hadm

/-- Master case analysis of `processAction`: the `UnhandledState` throw
is never taken, and every error leaves the invoice argument untouched. -/
theorem processAction_master (invoice : Invoice) (user : User) (action : String)
    (comment : Option String) (now : Nat) :
    (processAction invoice user action comment now).error ≠ some WfError.UnhandledState
    ∧ ((processAction invoice user action comment now).error ≠ none →
        (processAction invoice user action comment now).invoice = invoice) := by
  unfold processAction
  split
  · simp
  · split
    · simp
    · split
      · simp
      · split
        · simp
        · split
          · simp
          · split
            · simp
            · dsimp only
              split
              · simp
              · split
                · simp
                · split
                  · simp
                  · rename_i exp heq hallow hrej hman hfin
                    exfalso
                    rw [effectiveRole_eq exp user (not_not.mp hallow)] at hman hfin
                    rcases getExpectedRole_some heq with h | h
                    · exact hman h
                    · exact hfin h

/-- `badPadding` holds exactly for a defined, out-of-range or
non-integer padding. -/
theorem badPadding_iff (p : Option JsNum) :
    badPadding p = true ↔
      ((∃ n, p = some (JsNum.int n) ∧ (n < 1 ∨ 12 < n)) ∨ p = some JsNum.nonInt) := by
  cases p with
  | none => simp [badPadding]
  | some j => cases j with
    | int n => simp [badPadding]
    | nonInt => simp [badPadding]

/-- `badPfx` holds exactly for a defined id template of a wrong type. -/
theorem badPfx_iff (p : Option PfxVal) :
    badPfx p = true ↔ p = some PfxVal.other := by
  cases p with
  | none => simp [badPfx]
  | some v => cases v <;> simp [badPfx]

/-- `validateOptions` succeeds exactly when both field tests pass. -/
theorem validateOptions_none (o : GenOptions) :
    validateOptions o = none ↔
      (badPadding o.padding = false ∧ badPfx o.pfxOpt = false) := by
  unfold validateOptions
  split
  · next h => simp [h]
  · next h =>
    split
    · next h2 => simp [h2]
    · next h2 => simp_all

/-- `generateInvoiceId` errors exactly when one of the option tests
fires; the environment plays no part in it. -/
theorem gen_error_iff (o : GenOptions) (env : GenEnv) :
    (∃ e, generateInvoiceId o env = Except.error e) ↔
      (badPadding o.padding = true ∨ badPfx o.pfxOpt = true) := by
  unfold generateInvoiceId
  cases hv : validateOptions o with
  | some e =>
    simp only []
    constructor
    · intro _
      unfold validateOptions at hv
      by_cases h1 : badPadding o.padding = true
      · exact Or.inl h1
      · rw [if_neg h1] at hv
        by_cases h2 : badPfx o.pfxOpt = true
        · exact Or.inr h2
        · rw [if_neg h2] at hv
          exact absurd hv (by simp)
    · intro _
      exact ⟨e, rfl⟩
  | none =>
    simp only []
    constructor
    · intro ⟨e, he⟩
      split at he
      · exact absurd he (by simp)
      · split at he
        · exact absurd he (by simp)
        · exact absurd he (by simp)
    · intro h
      exfalso
      rcases (validateOptions_none o).mp hv with ⟨hp, hf⟩
      rcases h with h | h
      · rw [hp] at h
        exact Bool.false_ne_true h
      · rw [hf] at h
        exact Bool.false_ne_true h

/-- `counterInc` returns the stored value plus one (zero when absent)
and writes that value back. -/
theorem counterInc_eq (counters : List (String × Nat)) (key : String) :
    counterInc counters key =
      ((counters.lookup key).getD 0 + 1,
        setCounter counters key ((counters.lookup key).getD 0 + 1)) := by
  unfold counterInc
  cases h : counters.lookup key <;> simp [h]

/-- `Nat.digitChar` never yields the separator character. -/
theorem digitChar_ne_dash (m : Nat) : Nat.digitChar m ≠ '-' := by
  by_cases h : m < 16
  · interval_cases m <;> decide
  · have he : Nat.digitChar m = '*' := by
      unfold Nat.digitChar
      repeat rw [if_neg (by omega)]
    rw [he]
    decide

/-- `Nat.toDigitsCore` preserves dash-freeness of its accumulator. -/
theorem toDigitsCore_ne_dash :
    ∀ (fuel n : Nat) (ds : List Char),
      (∀ c ∈ ds, c ≠ '-') → ∀ c ∈ Nat.toDigitsCore 10 fuel n ds, c ≠ '-' := by
  intro fuel
  induction fuel with
  | zero =>
    intro n ds h c hc
    rw [Nat.toDigitsCore] at hc
    exact h c hc
  | succ fuel ih =>
    intro n ds h c hc
    simp only [Nat.toDigitsCore] at hc
    have hcons : ∀ c' ∈ Nat.digitChar (n % 10) :: ds, c' ≠ '-' := by
      intro c' hc'
      rcases List.mem_cons.mp hc' with he | hm
      · rw [he]
        exact digitChar_ne_dash _
      · exact h c' hm
    split at hc
    · exact hcons c hc
    · exact ih (n / 10) _ hcons c hc

/-- The decimal rendering of a natural number contains no dash. -/
theorem repr_ne_dash (n : Nat) : ∀ c ∈ (Nat.repr n).data, c ≠ '-' := by
  intro c hc
  have hd : (Nat.repr n).data = Nat.toDigitsCore 10 (n + 1) n [] := rfl
  rw [hd] at hc
  exact toDigitsCore_ne_dash (n + 1) n [] (by simp) c hc

/-- A zero-padded decimal rendering contains no dash either. -/
theorem padStart_repr_ne_dash (n len : Nat) :
    ∀ c ∈ (padStart (Nat.repr n) len '0').data, c ≠ '-' := by
  intro c hc
  have hd : (padStart (Nat.repr n) len '0').data
      = List.replicate (len - (Nat.repr n).length) '0' ++ (Nat.repr n).data := rfl
  rw [hd] at hc
  rcases List.mem_append.mp hc with h | h
  · rw [List.eq_of_mem_replicate h]
    decide
  · exact repr_ne_dash n c h

/-- With the same id part and padding, a normal-mode identifier can
never coincide with a degraded-mode identifier: after the shared stem
the former is pure digits while the latter contains a further dash. -/
theorem normalId_ne_degradedId (pfx : String) (padding seq ts rnd : Nat) :
    normalId pfx padding seq ≠ degradedId pfx padding ts rnd := by
  intro h
  have hd : pfx.data ++ '-' :: (padStart (Nat.repr seq) padding '0').data
      = pfx.data ++ '-' ::
          ((Nat.repr ts).data ++ '-' :: (padStart (Nat.repr rnd) padding '0').data) := by
    simpa [normalId, degradedId, List.append_assoc,
      show ("-" : String).data = ['-'] from rfl] using congrArg String.data h
  have htail := List.append_cancel_left hd
  injection htail with _ hAB
  have hmem : ('-' : Char) ∈ (padStart (Nat.repr seq) padding '0').data := by
    rw [hAB]
    simp
  exact padStart_repr_ne_dash seq padding '-' hmem rfl


/-! ## Claim theorems -/

/-- C1: `getExpectedRole` returns `manager` for a `PENDING` invoice with
empty history; returns `finance` for a `PENDING` invoice whose last
history entry is an `APPROVED` action recorded with role `manager` or
`admin`; and returns `null` in every other case — for any non-`PENDING`
(in particular terminal) status, and for a last entry of any other
shape. -/
theorem getExpectedRole_stage_rule (invoice : Invoice) :
    (invoice.status = "PENDING" → invoice.approvalHistory = [] →
        getExpectedRole invoice = some "manager")
  ∧ (∀ pre last, invoice.status = "PENDING" →
        invoice.approvalHistory = pre ++ [last] →
        last.action = "APPROVED" → (last.role = "manager" ∨ last.role = "admin") →
        getExpectedRole invoice = some "finance")
  ∧ (invoice.status ≠ "PENDING" → getExpectedRole invoice = none)
  ∧ (∀ pre last, invoice.approvalHistory = pre ++ [last] →
        ¬ (last.action = "APPROVED" ∧ (last.role = "manager" ∨ last.role = "admin")) →
        getExpectedRole invoice = none) := by
  refine ⟨?_, ?_, ?_, ?_⟩
  · intro hs hh
    simp [getExpectedRole, hs, hh]
  · intro pre last hs hh ha hr
    simp [getExpectedRole, hs, hh, List.getLast?_concat, ha, hr]
  · intro hs
    simp [getExpectedRole, hs]
  · intro pre last hh hshape
    by_cases hs : invoice.status = "PENDING"
    · simp [getExpectedRole, hs, hh, List.getLast?_concat, hshape]
    · simp [getExpectedRole, hs]

/-- Witness for C1: the four cases of `getExpectedRole_stage_rule`
evaluated on concrete invoices. -/
theorem getExpectedRole_stage_rule_witness :
    getExpectedRole ⟨"PENDING", [], "u1", none⟩ = some "manager"
  ∧ getExpectedRole ⟨"PENDING", [⟨"APPROVED", "u2", "manager", 0, none⟩], "u1", none⟩
      = some "finance"
  ∧ getExpectedRole ⟨"APPROVED", [], "u1", none⟩ = none
  ∧ getExpectedRole ⟨"PENDING", [⟨"REJECTED", "u2", "manager", 0, none⟩], "u1", none⟩
      = none :=
  ⟨(getExpectedRole_stage_rule _).1 rfl rfl,
    (getExpectedRole_stage_rule _).2.1 [] _ rfl rfl rfl (Or.inl rfl),
    (getExpectedRole_stage_rule _).2.2.1 (by decide),
    (getExpectedRole_stage_rule _).2.2.2 [] _ rfl (by decide)⟩

/-- C2: for a `PENDING` invoice and a call that passes every
precondition check (no error), `processAction` sets status `REJECTED`
and clears `currentApprover` on `REJECT`; keeps status `PENDING` on an
`APPROVE` whose effective role is `manager`; sets status `APPROVED` on
an `APPROVE` whose effective role is `finance`; and appends exactly one
history entry. -/
theorem processAction_success_transitions (invoice : Invoice) (user : User)
    (action : String) (comment : Option String) (now : Nat)
    (_hp : invoice.status = "PENDING")
    (hok : (processAction invoice user action comment now).error = none) :
    (action = "REJECT" →
        (processAction invoice user action comment now).invoice.status = "REJECTED" ∧
        (processAction invoice user action comment now).invoice.currentApprover = none)
  ∧ (∀ exp, getExpectedRole invoice = some exp → action = "APPROVE" →
        effectiveRole exp user = "manager" →
        (processAction invoice user action comment now).invoice.status = "PENDING")
  ∧ (∀ exp, getExpectedRole invoice = some exp → action = "APPROVE" →
        effectiveRole exp user = "finance" →
        (processAction invoice user action comment now).invoice.status = "APPROVED")
  ∧ (processAction invoice user action comment now).invoice.approvalHistory.length
      = invoice.approvalHistory.length + 1 := by
  revert hok
  unfold processAction
  split
  · intro hok; exact absurd hok (by simp)
  · split
    · intro hok; exact absurd hok (by simp)
    · split
      · intro hok; exact absurd hok (by simp)
      · split
        · intro hok; exact absurd hok (by simp)
        · split
          · intro hok; exact absurd hok (by simp)
          · split
            · intro hok; exact absurd hok (by simp)
            · dsimp only
              split
              · intro _
                refine ⟨fun _ => ⟨rfl, rfl⟩, ?_, ?_, by simp⟩
                · next hrej =>
                    intro exp hexp ha _
                    exact absurd ha (by rw [hrej] at *; simp_all)
                · next hrej =>
                    intro exp hexp ha _
                    exact absurd ha (by rw [hrej] at *; simp_all)
              · split
                · next heq hallow hrej hman =>
                    intro _
                    refine ⟨fun hr => absurd hr hrej, ?_, ?_, by simp⟩
                    · intro _ _ _ _
                      rfl
                    · intro exp' hexp' _ hfin'
                      rw [heq] at hexp'
                      cases Option.some.inj hexp'
                      rw [hman] at hfin'
                      exact absurd hfin' (by simp)
                · split
                  · next heq hallow hrej hman hfin =>
                      intro _
                      refine ⟨fun hr => absurd hr hrej, ?_, ?_, by simp⟩
                      · intro exp' hexp' _ hman'
                        rw [heq] at hexp'
                        cases Option.some.inj hexp'
                        rw [hfin] at hman'
                        exact absurd hman' (by simp)
                      · intro _ _ _ _
                        rfl
                  · intro hok
                    exact absurd hok (by simp)

/-- Witness for C2: the three transitions and the length invariant on
concrete invoices. -/
theorem processAction_success_transitions_witness :
    (processAction ⟨"PENDING", [], "u1", none⟩ ⟨"u2", "manager"⟩ "REJECT" none 0).invoice.status
        = "REJECTED"
  ∧ (processAction ⟨"PENDING", [], "u1", none⟩ ⟨"u2", "manager"⟩ "REJECT" none 0).invoice.currentApprover
        = none
  ∧ (processAction ⟨"PENDING", [], "u1", none⟩ ⟨"u2", "manager"⟩ "APPROVE" none 0).invoice.status
        = "PENDING"
  ∧ (processAction ⟨"PENDING", [⟨"APPROVED", "u2", "manager", 0, none⟩], "u1", none⟩
        ⟨"u3", "finance"⟩ "APPROVE" none 0).invoice.status = "APPROVED"
  ∧ (processAction ⟨"PENDING", [], "u1", none⟩ ⟨"u2", "manager"⟩ "APPROVE" none 0).invoice.approvalHistory.length
        = 1 := by
  refine ⟨?_, ?_, ?_, ?_, ?_⟩
  · exact ((processAction_success_transitions ⟨"PENDING", [], "u1", none⟩ ⟨"u2", "manager"⟩
      "REJECT" none 0 rfl (by decide)).1 rfl).1
  · exact ((processAction_success_transitions ⟨"PENDING", [], "u1", none⟩ ⟨"u2", "manager"⟩
      "REJECT" none 0 rfl (by decide)).1 rfl).2
  · exact (processAction_success_transitions ⟨"PENDING", [], "u1", none⟩ ⟨"u2", "manager"⟩
      "APPROVE" none 0 rfl (by decide)).2.1 "manager" (by decide) rfl (by decide)
  · exact (processAction_success_transitions
      ⟨"PENDING", [⟨"APPROVED", "u2", "manager", 0, none⟩], "u1", none⟩ ⟨"u3", "finance"⟩
      "APPROVE" none 0 rfl (by decide)).2.2.1 "finance" (by decide) rfl (by decide)
  · have h := (processAction_success_transitions ⟨"PENDING", [], "u1", none⟩ ⟨"u2", "manager"⟩
      "APPROVE" none 0 rfl (by decide)).2.2.2
    simpa using h

/-- C3: on a terminal invoice (`APPROVED` or `REJECTED`), any call with
a well-formed actor and an action in {APPROVE, REJECT} fails with
`AlreadyFinalized` and returns the invoice completely unchanged — so a
repeated terminal-inducing call performs the transition only once. -/
theorem processAction_already_finalized (invoice : Invoice) (user : User)
    (action : String) (comment : Option String) (now : Nat)
    (hid : user.id ≠ "") (hrole : user.role ≠ "")
    (haction : action = "APPROVE" ∨ action = "REJECT")
    (hterm : invoice.status = "APPROVED" ∨ invoice.status = "REJECTED") :
    processAction invoice user action comment now
      = ⟨some WfError.AlreadyFinalized, invoice⟩ := by
  unfold processAction
  rw [if_neg (by simp [hid, hrole]), if_neg (not_not_intro haction), if_pos hterm]

/-- Witness for C3: a manager rejects a fresh invoice (transition
happens once); replaying the same action on the result fails with
`AlreadyFinalized` and leaves state and history untouched. -/
theorem processAction_already_finalized_witness :
    processAction ⟨"PENDING", [], "u1", none⟩ ⟨"u2", "manager"⟩ "REJECT" none 0
      = ⟨none, ⟨"REJECTED", [⟨"REJECTED", "u2", "manager", 0, none⟩], "u1", none⟩⟩
  ∧ processAction ⟨"REJECTED", [⟨"REJECTED", "u2", "manager", 0, none⟩], "u1", none⟩
        ⟨"u2", "manager"⟩ "REJECT" none 0
      = ⟨some WfError.AlreadyFinalized,
          ⟨"REJECTED", [⟨"REJECTED", "u2", "manager", 0, none⟩], "u1", none⟩⟩ :=
  ⟨by decide,
    processAction_already_finalized
      ⟨"REJECTED", [⟨"REJECTED", "u2", "manager", 0, none⟩], "u1", none⟩
      ⟨"u2", "manager"⟩ "REJECT" none 0 (by decide) (by decide)
      (Or.inr rfl) (Or.inr rfl)⟩

/-- C4: on a non-terminal invoice, a well-formed non-admin actor whose
id equals `submittedBy` fails with `ConflictOfInterest` for both
actions, with no hypothesis about the expected role — the check runs
before role-stage validation; an admin with the same id is never
blocked by this check. -/
theorem processAction_conflict_of_interest (invoice : Invoice) (user : User)
    (action : String) (comment : Option String) (now : Nat)
    (hid : user.id ≠ "") (hrole : user.role ≠ "")
    (haction : action = "APPROVE" ∨ action = "REJECT")
    (hterm : invoice.status ≠ "APPROVED" ∧ invoice.status ≠ "REJECTED") :
    (invoice.submittedBy = user.id → user.role ≠ "admin" →
        processAction invoice user action comment now
          = ⟨some WfError.ConflictOfInterest, invoice⟩)
  ∧ (user.role = "admin" →
        (processAction invoice user action comment now).error
          ≠ some WfError.ConflictOfInterest) := by
  constructor
  · intro hsub hadmin
    unfold processAction
    rw [if_neg (by simp [hid, hrole]), if_neg (not_not_intro haction),
      if_neg (by simp [hterm.1, hterm.2]), if_pos ⟨hsub, hadmin⟩]
  · intro hadmin
    unfold processAction
    rw [if_neg (by simp [hid, hrole]), if_neg (not_not_intro haction),
      if_neg (by simp [hterm.1, hterm.2]), if_neg (by simp [hadmin])]
    split
    · simp
    · split
      · simp
      · dsimp only
        split
        · simp
        · split
          · simp
          · split <;> simp

/-- Witness for C4: the submitter (role `employee`) gets
`ConflictOfInterest` on a fresh invoice; the submitter gets
`ConflictOfInterest` even on an invoice where no action is expected
(showing the check precedes role-stage validation); an admin submitter
is not blocked by the check. -/
theorem processAction_conflict_of_interest_witness :
    processAction ⟨"PENDING", [], "u1", none⟩ ⟨"u1", "employee"⟩ "APPROVE" none 0
      = ⟨some WfError.ConflictOfInterest, ⟨"PENDING", [], "u1", none⟩⟩
  ∧ processAction ⟨"PENDING", [⟨"REJECTED", "u2", "manager", 0, none⟩], "u1", none⟩
        ⟨"u1", "finance"⟩ "REJECT" none 0
      = ⟨some WfError.ConflictOfInterest,
          ⟨"PENDING", [⟨"REJECTED", "u2", "manager", 0, none⟩], "u1", none⟩⟩
  ∧ (processAction ⟨"PENDING", [], "u1", none⟩ ⟨"u1", "admin"⟩ "APPROVE" none 0).error
      ≠ some WfError.ConflictOfInterest :=
  ⟨(processAction_conflict_of_interest ⟨"PENDING", [], "u1", none⟩ ⟨"u1", "employee"⟩
      "APPROVE" none 0 (by decide) (by decide) (Or.inl rfl) (by decide)).1 rfl (by decide),
    (processAction_conflict_of_interest
      ⟨"PENDING", [⟨"REJECTED", "u2", "manager", 0, none⟩], "u1", none⟩ ⟨"u1", "finance"⟩
      "REJECT" none 0 (by decide) (by decide) (Or.inr rfl) (by decide)).1 rfl (by decide),
    (processAction_conflict_of_interest ⟨"PENDING", [], "u1", none⟩ ⟨"u1", "admin"⟩
      "APPROVE" none 0 (by decide) (by decide) (Or.inl rfl) (by decide)).2 rfl⟩


/-- C5 counterexample: an admin approving a fresh invoice is expected in
the `manager` slot (effective role `manager`), the call succeeds, yet
the appended history entry records role `admin` — not the effective
slot role — refuting the claim that the recorded role equals the
effective role. -/
theorem processAction_admin_recorded_as_admin :
    getExpectedRole ⟨"PENDING", [], "u1", none⟩ = some "manager"
  ∧ effectiveRole "manager" ⟨"u9", "admin"⟩ = "manager"
  ∧ (processAction ⟨"PENDING", [], "u1", none⟩ ⟨"u9", "admin"⟩ "APPROVE" none 0).error
      = none
  ∧ (processAction ⟨"PENDING", [], "u1", none⟩ ⟨"u9", "admin"⟩ "APPROVE" none 0).invoice.approvalHistory.map
        HistoryEntry.role = ["admin"]
  ∧ ¬ ((processAction ⟨"PENDING", [], "u1", none⟩ ⟨"u9", "admin"⟩ "APPROVE" none 0).invoice.approvalHistory.map
        HistoryEntry.role = [effectiveRole "manager" ⟨"u9", "admin"⟩]) := by
  decide

/-- C5 (amended): every successful `processAction` call appends exactly
one entry whose recorded role is the actor's ACTUAL role (`user.role`);
for a non-admin actor this coincides with the effective role, but an
admin is recorded as `admin`, not as the slot role. -/
theorem processAction_recorded_role (invoice : Invoice) (user : User)
    (action : String) (comment : Option String) (now : Nat)
    (hok : (processAction invoice user action comment now).error = none) :
    ∃ entry : HistoryEntry,
      (processAction invoice user action comment now).invoice.approvalHistory
        = invoice.approvalHistory ++ [entry]
      ∧ entry.role = user.role
      ∧ (user.role ≠ "admin" → ∀ exp, getExpectedRole invoice = some exp →
          entry.role = effectiveRole exp user) := by
  revert hok
  unfold processAction
  split
  · intro hok; exact absurd hok (by simp)
  · split
    · intro hok; exact absurd hok (by simp)
    · split
      · intro hok; exact absurd hok (by simp)
      · split
        · intro hok; exact absurd hok (by simp)
        · split
          · intro hok; exact absurd hok (by simp)
          · split
            · intro hok; exact absurd hok (by simp)
            · dsimp only
              split
              · intro _
                exact ⟨_, rfl, rfl, fun hnadm exp _ => by simp [effectiveRole, hnadm]⟩
              · split
                · intro _
                  exact ⟨_, rfl, rfl, fun hnadm exp _ => by simp [effectiveRole, hnadm]⟩
                · split
                  · intro _
                    exact ⟨_, rfl, rfl, fun hnadm exp _ => by simp [effectiveRole, hnadm]⟩
                  · intro hok
                    exact absurd hok (by simp)

/-- Witness for the amended C5: a manager approving a fresh invoice is
recorded under the role `manager`, which equals the effective role. -/
theorem processAction_recorded_role_witness :
    ∃ entry : HistoryEntry,
      (processAction ⟨"PENDING", [], "u1", none⟩ ⟨"u2", "manager"⟩ "APPROVE" none 0).invoice.approvalHistory
        = (⟨"PENDING", [], "u1", none⟩ : Invoice).approvalHistory ++ [entry]
      ∧ entry.role = ({ id := "u2", role := "manager" } : User).role
      ∧ (({ id := "u2", role := "manager" } : User).role ≠ "admin" →
          ∀ exp, getExpectedRole ⟨"PENDING", [], "u1", none⟩ = some exp →
            entry.role = effectiveRole exp ⟨"u2", "manager"⟩) :=
  processAction_recorded_role ⟨"PENDING", [], "u1", none⟩ ⟨"u2", "manager"⟩
    "APPROVE" none 0 (by decide)

/-- C6: the `UnhandledState` branch of `processAction` is unreachable —
for every input whatsoever, the outcome is success or one of the five
precondition errors, never `UnhandledState`: the preceding checks force
the effective role to be `manager` or `finance`. -/
theorem processAction_never_unhandled (invoice : Invoice) (user : User)
    (action : String) (comment : Option String) (now : Nat) :
    (processAction invoice user action comment now).error ∈
      [none, some WfError.InvalidInput, some WfError.AlreadyFinalized,
        some WfError.ConflictOfInterest, some WfError.NoActionExpected,
        some WfError.WrongStage] := by
  have h := (processAction_master invoice user action comment now).1
  cases he : (processAction invoice user action comment now).error with
  | none => simp
  | some e =>
    rw [he] at h
    cases e <;> simp_all

/-- C10: whenever `processAction` fails with any error kind, the invoice
passed in is returned completely unchanged — no history entry is
appended and status and `currentApprover` keep their prior values. -/
theorem processAction_failure_atomic (invoice : Invoice) (user : User)
    (action : String) (comment : Option String) (now : Nat) (e : WfError)
    (he : (processAction invoice user action comment now).error = some e) :
    (processAction invoice user action comment now).invoice = invoice :=
  (processAction_master invoice user action comment now).2 (by rw [he]; simp)

/-- Witness for C10: a rejected-upon-terminal call returns the invoice
unchanged. -/
theorem processAction_failure_atomic_witness :
    (processAction ⟨"APPROVED", [], "u1", none⟩ ⟨"u2", "manager"⟩ "APPROVE" none 0).invoice
      = ⟨"APPROVED", [], "u1", none⟩ :=
  processAction_failure_atomic ⟨"APPROVED", [], "u1", none⟩ ⟨"u2", "manager"⟩
    "APPROVE" none 0 WfError.AlreadyFinalized (by decide)


/-- C7: `generateInvoiceId` raises exactly for caller misuse — a defined
padding that is not an integer in [1, 12], or a defined id template that
is neither a string nor a function; when the counter store is
unreachable or the store operation errors (and the options are valid) it
does not raise but returns a degraded-mode identifier, leaving the
counter store untouched. -/
theorem generateInvoiceId_error_only_misuse (o : GenOptions) (env : GenEnv) :
    ((∃ e, generateInvoiceId o env = Except.error e) ↔
      ((∃ n, o.padding = some (JsNum.int n) ∧ (n < 1 ∨ 12 < n)) ∨
        o.padding = some JsNum.nonInt ∨ o.pfxOpt = some PfxVal.other))
  ∧ ((env.connected = false ∨ env.storeFails = true) → validateOptions o = none →
      generateInvoiceId o env =
        Except.ok ⟨degradedId (resolvePfx o (resolveYear o env)) (resolvePadding o)
            env.nowMs env.rnd, env.counters⟩) := by
  constructor
  · rw [gen_error_iff o env, badPadding_iff, badPfx_iff, or_assoc]
  · intro hdeg hv
    rcases hdeg with hc | hs
    · simp [generateInvoiceId, hv, hc]
    · have hc : env.connected = true ∨ env.connected = false := by
        cases env.connected <;> simp
      rcases hc with hc | hc
      · simp [generateInvoiceId, hv, hc, hs]
      · simp [generateInvoiceId, hv, hc]

/-- Witness for C7: a non-integer padding yields an error in a healthy
environment, and valid options in a disconnected environment yield a
degraded-mode identifier without raising. -/
theorem generateInvoiceId_error_only_misuse_witness :
    (∃ e, generateInvoiceId { padding := some JsNum.nonInt } (envNormal [])
        = Except.error e)
  ∧ generateInvoiceId opts2026 envDegraded =
      Except.ok ⟨degradedId (resolvePfx opts2026 (resolveYear opts2026 envDegraded))
          (resolvePadding opts2026) envDegraded.nowMs envDegraded.rnd,
        envDegraded.counters⟩ :=
  ⟨(generateInvoiceId_error_only_misuse { padding := some JsNum.nonInt }
      (envNormal [])).1.mpr (Or.inr (Or.inl rfl)),
    (generateInvoiceId_error_only_misuse opts2026 envDegraded).2 (Or.inl rfl) rfl⟩

/-- C8: in normal mode every call returns the previous counter value of
its period key plus one, zero-padded and prefixed, and writes the
incremented value back; concretely, three sequential calls for period
key 2026 with id part "INV-2026" and padding 6, starting from an absent
(or zero) counter, return INV-2026-000001, INV-2026-000002,
INV-2026-000003 in that order — the sequence values 1, 2, 3 are
strictly increasing. -/
theorem generateInvoiceId_sequence :
    (∀ (o : GenOptions) (env : GenEnv),
        validateOptions o = none → env.connected = true → env.storeFails = false →
        generateInvoiceId o env =
          Except.ok ⟨normalId (resolvePfx o (resolveYear o env)) (resolvePadding o)
              ((env.counters.lookup ("invoiceId:" ++ Nat.repr (resolveYear o env))).getD 0 + 1),
            setCounter env.counters ("invoiceId:" ++ Nat.repr (resolveYear o env))
              ((env.counters.lookup ("invoiceId:" ++ Nat.repr (resolveYear o env))).getD 0 + 1)⟩)
  ∧ generateInvoiceId opts2026 (envNormal [])
      = Except.ok ⟨"INV-2026-000001", [("invoiceId:2026", 1)]⟩
  ∧ generateInvoiceId opts2026 (envNormal [("invoiceId:2026", 0)])
      = Except.ok ⟨"INV-2026-000001", [("invoiceId:2026", 1)]⟩
  ∧ generateInvoiceId opts2026 (envNormal [("invoiceId:2026", 1)])
      = Except.ok ⟨"INV-2026-000002", [("invoiceId:2026", 2)]⟩
  ∧ generateInvoiceId opts2026 (envNormal [("invoiceId:2026", 2)])
      = Except.ok ⟨"INV-2026-000003", [("invoiceId:2026", 3)]⟩ := by
  refine ⟨?_, rfl, rfl, rfl, rfl⟩
  intro o env hv hc hs
  simp [generateInvoiceId, hv, hc, hs, counterInc_eq]

/-- Witness for C8: the general increment law instantiated at the
concrete 2026 scenario with an empty counter store. -/
theorem generateInvoiceId_sequence_witness :
    generateInvoiceId opts2026 (envNormal []) =
      Except.ok ⟨normalId (resolvePfx opts2026 (resolveYear opts2026 (envNormal [])))
          (resolvePadding opts2026)
          (((envNormal []).counters.lookup
              ("invoiceId:" ++ Nat.repr (resolveYear opts2026 (envNormal [])))).getD 0 + 1),
        setCounter (envNormal []).counters
          ("invoiceId:" ++ Nat.repr (resolveYear opts2026 (envNormal [])))
          (((envNormal []).counters.lookup
              ("invoiceId:" ++ Nat.repr (resolveYear opts2026 (envNormal [])))).getD 0 + 1)⟩ :=
  generateInvoiceId_sequence.1 opts2026 (envNormal []) rfl rfl rfl

/-- C9: an identifier allocated in degraded mode can never equal an
identifier allocated in normal mode for the same resolved id part (and
the same options, hence the same padding): the degraded format carries
an extra dash-separated timestamp segment where the normal format has
only digits. -/
theorem generateInvoiceId_no_cross_mode_collision
    (o : GenOptions) (env1 env2 : GenEnv) (r1 r2 : GenResult)
    (h1c : env1.connected = true) (h1s : env1.storeFails = false)
    (h2 : env2.connected = false ∨ env2.storeFails = true)
    (hpfx : resolvePfx o (resolveYear o env1) = resolvePfx o (resolveYear o env2))
    (hr1 : generateInvoiceId o env1 = Except.ok r1)
    (hr2 : generateInvoiceId o env2 = Except.ok r2) :
    r1.value ≠ r2.value := by
  cases hv : validateOptions o with
  | some e =>
    rw [generateInvoiceId, hv] at hr1
    exact absurd hr1 (by simp)
  | none =>
    have h1 : r1.value
        = normalId (resolvePfx o (resolveYear o env1)) (resolvePadding o)
            ((counterInc env1.counters ("invoiceId:" ++ Nat.repr (resolveYear o env1))).fst) := by
      rw [generateInvoiceId, hv] at hr1
      simp only [h1c, h1s, Bool.true_eq_false, if_neg, if_false] at hr1
      rw [← Option.some.inj (congrArg Except.toOption hr1)]
    have h2v : r2.value
        = degradedId (resolvePfx o (resolveYear o env2)) (resolvePadding o)
            env2.nowMs env2.rnd := by
      rw [generateInvoiceId, hv] at hr2
      rcases h2 with hc | hs
      · simp only [hc, if_true, if_pos] at hr2
        rw [← Option.some.inj (congrArg Except.toOption hr2)]
      · have hcc : env2.connected = true ∨ env2.connected = false := by
          cases env2.connected <;> simp
        rcases hcc with hcc | hcc
        · simp only [hcc, hs, Bool.true_eq_false, if_neg, if_false, if_true] at hr2
          rw [← Option.some.inj (congrArg Except.toOption hr2)]
        · simp only [hcc, if_true, if_pos] at hr2
          rw [← Option.some.inj (congrArg Except.toOption hr2)]
    rw [h1, h2v, hpfx]
    exact normalId_ne_degradedId _ _ _ _ _

/-- Witness for C9: the first normal-mode 2026 identifier differs from a
degraded-mode identifier taken at timestamp 5 with random suffix 7. -/
theorem generateInvoiceId_no_cross_mode_collision_witness :
    ({ value := "INV-2026-000001", counters := [("invoiceId:2026", 1)] } : GenResult).value
      ≠ ({ value := "INV-2026-5-000007", counters := [] } : GenResult).value :=
  generateInvoiceId_no_cross_mode_collision opts2026 (envNormal []) envDegraded
    ⟨"INV-2026-000001", [("invoiceId:2026", 1)]⟩ ⟨"INV-2026-5-000007", []⟩
    rfl rfl (Or.inl rfl) rfl rfl rfl

end AutoFlow
